import Mathlib

/-!
Shallow embedding of the ubuntu-insights-k8s-operator charm logic.

The definitions below are translated from `src/charm.py` and
`src/database.py`.  Python strings become `String`, Python dicts with
possibly-missing keys become `Option` fields, the Pebble container and
Juju model state observed by the charm become explicit record fields,
and the side-effecting handlers become functions returning a list of
effects.  Python list objects subject to mutation are modelled by a
small heap of list cells, so that aliasing and in-place `extend` are
represented faithfully.
-/

/-- Model of the Python `str.split(sep)` method for a one-character,
non-empty separator, acting on the character list of the string.
Like in Python, splitting the empty string yields `[[]]` (one empty
field), and a leading/trailing separator yields an empty field. -/
def splitChar (sep : Char) : List Char → List (List Char)
  | [] => [[]]
  | c :: rest =>
    let r := splitChar sep rest
    if c = sep then [] :: r
    else
      match r with
      | [] => [[c]]
      | h :: t => (c :: h) :: t

/-- Python `s.split(sep)` for a one-character separator `sep`. -/
def pySplit (sep : Char) (s : String) : List String :=
  (splitChar sep s.toList).map (fun l => String.mk l)

/-- Data class for database relation data (`database.py`, lines 17-25).
All five fields default to the empty string. -/
structure DBData where
  host : String := ""
  port : String := ""
  user : String := ""
  password : String := ""
  db_name : String := ""
deriving DecidableEq, Repr

/-- The canonical empty descriptor `DBData()`. -/
def emptyDB : DBData := {}

/-- A relation data bag as supplied by the database provider: a mapping
whose keys `endpoints`, `username`, `password`, `database` may each be
absent (`none`). `relation_data.get(k)` is `Option` lookup and
`relation_data.get(k, "")` is `Option.getD`. -/
structure RelationBag where
  endpoints : Option String := none
  username : Option String := none
  password : Option String := none
  database : Option String := none
deriving DecidableEq, Repr

/-- The colon-split of the first comma-separated endpoint of a bag,
transcribing `database.py` lines 66-67:
`endpoints = relation_data.get("endpoints", "").split(",")` and
`primary_endpoint = endpoints[0].split(":")`. -/
def first_endpoint_parts (bag : RelationBag) : List String :=
  pySplit ':' ((pySplit ',' (bag.endpoints.getD "")).headD "")

/-- Parsing of a single relation data bag, transcribing the body of
`get_relation_data` (`database.py`, lines 66-89) after the bag has been
fetched: reject when the primary endpoint has fewer than 2 colon parts,
reject when any of `username` / `password` / `database` is `None`,
otherwise build the descriptor field by field. -/
def parse_relation_bag (bag : RelationBag) : DBData :=
  let primary_endpoint := first_endpoint_parts bag
  if primary_endpoint.length < 2 then emptyDB
  else if bag.username = none ∨ bag.password = none ∨ bag.database = none then emptyDB
  else
    { host := primary_endpoint.headD ""
      port := primary_endpoint.getD 1 ""
      user := bag.username.getD ""
      password := bag.password.getD ""
      db_name := bag.database.getD "" }

/-- The state of the `DatabaseHandler` as observed by
`get_relation_data`: whether `model.get_relation(relation_name)` is
non-`None`, the list of related instances with their data bags (the
code indexes `fetch_relation_data()` with `relations[0].id`, which is
the first bag of this list), and whether `fetch_relation_data`
succeeded (an exception is modelled by `fetchOk = false`). -/
structure DatabaseHandlerState where
  relationExists : Bool
  relations : List RelationBag
  fetchOk : Bool := true
deriving DecidableEq, Repr

/-- Embedding of `DatabaseHandler.get_relation_data` (`database.py`,
lines 47-89): empty descriptor when the relation is missing, the
relations list is empty, or the fetch raised; otherwise the parse of
the FIRST related instance (the code reads `relations[0].id`). -/
def get_relation_data (st : DatabaseHandlerState) : DBData :=
  match st.relations with
  | [] => emptyDB
  | bag :: _ =>
    if !st.relationExists then emptyDB
    else if !st.fetchOk then emptyDB
    else parse_relation_bag bag

/-- Embedding of `DatabaseHandler.is_relation_ready` (`database.py`,
lines 91-97): the descriptor is ready iff its host is non-empty. -/
def is_relation_ready (st : DatabaseHandlerState) : Bool :=
  (get_relation_data st).host != ""

/-- The fixed legacy version identifiers (`charm.py`, lines 51-66).
The source declares them as a Python set literal; the model fixes the
iteration order to the textual order of the literal.  There are 14
entries. -/
def LEGACY_VERSIONS : List String :=
  ["18.04", "18.10", "20.04", "20.10", "21.04", "21.10", "22.04",
   "22.10", "23.04", "23.10", "24.04", "24.10", "25.04", "25.10"]

/-- Formatting of one legacy allow-list entry
(`charm.py`, line 303). -/
def legacy_entry (version : String) : String :=
  "ubuntu-report/ubuntu/desktop/" ++ version

/-- A heap of Python list objects; a list value is identified by its
index (reference) into the heap. -/
abbrev Heap := List (List String)

/-- Reading a list object from the heap. -/
def heap_get (h : Heap) (r : Nat) : List String := h.getD r []

/-- In-place mutation of a list object on the heap. -/
def heap_set (h : Heap) (r : Nat) (v : List String) : Heap := h.set r v

/-- Allocation of a fresh list object, returning the new heap and the
fresh reference. -/
def heap_alloc (h : Heap) (v : List String) : Heap × Nat :=
  (h ++ [v], h.length)

/-- Embedding of `_render_dynamic_config` (`charm.py`, lines 285-315)
over an arbitrary allow-list object: the local name `allowlist` starts
out aliasing the object passed by the caller; under the legacy flag the
code rebinds it to `allowlist.copy()` (a fresh object) and then
`extend`s THAT object in place with the formatted legacy entries.  The
result is the new heap together with the list serialized into the
`allowList` field of the written JSON document.  The Pebble `push` of
the serialized document and the failure logging do not touch the list
object and are not modelled here. -/
def render_dynamic_config (h : Heap) (allowlist : Nat) (legacy : Bool) :
    Heap × List String :=
  if legacy then
    let alloc := heap_alloc h (heap_get h allowlist)
    let h1 := alloc.1
    let copyRef := alloc.2
    let h2 := heap_set h1 copyRef
      (heap_get h1 copyRef ++ LEGACY_VERSIONS.map legacy_entry)
    (h2, heap_get h2 copyRef)
  else
    (h, heap_get h allowlist)

/-- Enum for service types (`charm.py`, lines 29-33). -/
inductive ServiceType
  | WEB
  | INGEST
deriving DecidableEq, Repr

/-- String value of a service type. -/
def ServiceType.value : ServiceType → String
  | .WEB => "web-service"
  | .INGEST => "ingest-service"

def APP_NAME : String := "ubuntu-insights"

def REPORTS_CACHE_NAME : String := "reports-cache"

def WEB_DYNAMIC_PATH : String := "/etc/ubuntu-insights-service/web-live-config.json"

def INGEST_DYNAMIC_PATH : String := "/etc/ubuntu-insights-service/ingest-live-config.json"

def WEB_PROMETHEUS_PORT : Nat := 2112

def INGEST_PROMETHEUS_PORT : Nat := 2113

def MIGRATIONS_PATH : String := "/usr/share/insights/migrations"

/-- Container metadata: the mount table, name to location. -/
structure ContainerMeta where
  mounts : List (String × String)
deriving DecidableEq, Repr

/-- The external state a charm event handler observes: charm
configuration values, the database handler state, container metadata,
and the Pebble-visible container state. -/
structure CharmEnv where
  web_port : Nat
  migrate : Bool
  debug : Bool
  db : DatabaseHandlerState
  containerMeta : Option ContainerMeta
  canConnect : Bool
  webConfigExists : Bool
  ingestConfigExists : Bool
  webInPlan : Bool
  ingestInPlan : Bool
  webRunning : Bool
  ingestRunning : Bool
  servicesQueryOk : Bool
deriving DecidableEq, Repr

/-- Embedding of the `report_cache_path` property (`charm.py`,
lines 228-244): empty string when the container metadata or the
reports-cache mount is missing, else the mount location. -/
def report_cache_path (env : CharmEnv) : String :=
  match env.containerMeta with
  | none => ""
  | some meta =>
    match meta.mounts.lookup REPORTS_CACHE_NAME with
    | none => ""
    | some loc => loc

/-- Whether `container.exists(path)` holds for one of the two dynamic
config paths. -/
def config_file_exists (env : CharmEnv) (path : String) : Bool :=
  if path = WEB_DYNAMIC_PATH then env.webConfigExists
  else if path = INGEST_DYNAMIC_PATH then env.ingestConfigExists
  else false

/-- Embedding of `_is_config_rendered` (`charm.py`, lines 317-332). -/
def is_config_rendered (env : CharmEnv) (service_type : ServiceType) : Bool :=
  let config_path :=
    match service_type with
    | ServiceType.WEB => WEB_DYNAMIC_PATH
    | ServiceType.INGEST => INGEST_DYNAMIC_PATH
  env.canConnect && config_file_exists env config_path

/-- Embedding of the `ingest_environment` property (`charm.py`,
lines 209-226) as an ordered association list.  The source line
`if not db_data: return {}` is dead code: a Python dataclass instance
defines neither a boolean conversion nor a length, so it is always
truthy, and that branch can never be taken. -/
def ingest_environment (db : DatabaseHandlerState) : List (String × String) :=
  if !is_relation_ready db then []
  else
    let db_data := get_relation_data db
    [("UBUNTU_INSIGHTS_INGEST_SERVICE_DBCONFIG_HOST", db_data.host),
     ("UBUNTU_INSIGHTS_INGEST_SERVICE_DBCONFIG_PORT", db_data.port),
     ("UBUNTU_INSIGHTS_INGEST_SERVICE_DBCONFIG_USER", db_data.user),
     ("UBUNTU_INSIGHTS_INGEST_SERVICE_DBCONFIG_PASSWORD", db_data.password),
     ("UBUNTU_INSIGHTS_INGEST_SERVICE_DBCONFIG_DBNAME", db_data.db_name)]

/-- One service entry of the computed Pebble layer. -/
structure ServiceSpec where
  summary : String
  command : String
  startup : String
  environment : List (String × String) := []
deriving DecidableEq, Repr

/-- The computed Pebble layer: the two named services and the web
readiness check URL. -/
structure PebbleLayer where
  summary : String
  web : ServiceSpec
  ingest : ServiceSpec
  check_url : String
deriving DecidableEq, Repr

/-- Embedding of the `_pebble_layer` property (`charm.py`,
lines 344-423), including the two intermediate startup computations
that the source then overwrites unconditionally at lines 390-395
(the rebindings below shadow the earlier ones exactly as the Python
reassignments do). -/
def pebble_layer (env : CharmEnv) : PebbleLayer :=
  let debug := if env.debug then "-vv" else "-v"
  let web_command := String.intercalate " "
    ["/bin/ubuntu-insights-web-service", WEB_DYNAMIC_PATH,
     "--listen-port=" ++ toString env.web_port,
     "--reports-dir=" ++ report_cache_path env,
     "--metrics-port=" ++ toString WEB_PROMETHEUS_PORT,
     "--json-logs", debug]
  let ingest_command := String.intercalate " "
    ["/bin/ubuntu-insights-ingest-service", INGEST_DYNAMIC_PATH,
     "--reports-dir=" ++ report_cache_path env,
     "--metrics-port=" ++ toString INGEST_PROMETHEUS_PORT,
     "--json-logs", debug]
  let web_startup := "enabled"
  let ingest_startup := "enabled"
  let web_startup :=
    if !is_config_rendered env ServiceType.WEB || report_cache_path env = "" then
      "disabled"
    else web_startup
  let ingest_startup :=
    if !is_config_rendered env ServiceType.INGEST || report_cache_path env = "" then
      "disabled"
    else ingest_startup
  let ingest_startup :=
    if !is_relation_ready env.db then "disabled" else ingest_startup
  let web_startup :=
    if report_cache_path env != "" then "enabled" else "disabled"
  let ingest_startup :=
    if report_cache_path env != "" && is_relation_ready env.db then "enabled"
    else "disabled"
  { summary := APP_NAME ++ " layer"
    web := { summary := "web service", command := web_command, startup := web_startup }
    ingest := { summary := "ingest service", command := ingest_command,
                startup := ingest_startup,
                environment := ingest_environment env.db }
    check_url := "http://localhost:" ++ toString env.web_port ++ "/version" }

/-- Observable side effects of a charm event handler. -/
inductive Effect
  | stopService (s : ServiceType)
  | renderConfig (s : ServiceType)
  | execMigrations (migrateEnv : List (String × String))
  | setUnitStatus (message : String)
  | setPorts (port : Nat)
  | addLayer (layer : PebbleLayer)
  | replan
  | setWorkloadVersion
deriving DecidableEq, Repr

/-- Whether the named service is in the current Pebble plan. -/
def service_in_plan (env : CharmEnv) : ServiceType → Bool
  | ServiceType.WEB => env.webInPlan
  | ServiceType.INGEST => env.ingestInPlan

/-- Whether the named service is currently running. -/
def service_running (env : CharmEnv) : ServiceType → Bool
  | ServiceType.WEB => env.webRunning
  | ServiceType.INGEST => env.ingestRunning

/-- Embedding of `_stop_service` (`charm.py`, lines 466-478): the stop
call is issued only when the container is reachable, the service is in
the current plan, and it is running. -/
def stop_service (env : CharmEnv) (service : ServiceType) : List Effect :=
  if env.canConnect && service_in_plan env service && service_running env service then
    [Effect.stopService service]
  else []

/-- Embedding of `_on_database_relation_broken` (`charm.py`,
lines 254-256): the handler body is a single `_stop_service` call on
the ingest service. -/
def on_database_relation_broken (env : CharmEnv) : List Effect :=
  stop_service env ServiceType.INGEST

/-- Embedding of `_execute_migrations` (`charm.py`, lines 440-464):
when the relation is not ready or the container is unreachable the
handler only logs and returns (no effects); otherwise it sets a
maintenance status and executes the migrate subcommand with the ingest
environment injected. -/
def execute_migrations (env : CharmEnv) : List Effect :=
  if !is_relation_ready env.db || !env.canConnect then []
  else
    [Effect.setUnitStatus "Running database migrations",
     Effect.execMigrations (ingest_environment env.db)]

/-- Embedding of `_update_layer_and_replan` (`charm.py`,
lines 262-274): a Pebble failure aborts the whole step, which is
modelled by gating on reachability. -/
def update_layer_and_replan (env : CharmEnv) : List Effect :=
  if env.canConnect then
    [Effect.addLayer (pebble_layer env), Effect.replan, Effect.setWorkloadVersion]
  else []

/-- Embedding of `_on_config_changed` (`charm.py`, lines 187-207):
render both config files, run migrations only when the `migrate`
config flag is set, expose the web port, and update the layer. -/
def on_config_changed (env : CharmEnv) : List Effect :=
  [Effect.renderConfig ServiceType.WEB, Effect.renderConfig ServiceType.INGEST]
  ++ (if env.migrate then execute_migrations env else [])
  ++ [Effect.setPorts env.web_port]
  ++ update_layer_and_replan env

/-- Severity kinds of a collected unit status. -/
inductive StatusKind
  | blocked
  | waiting
  | maintenance
  | active
deriving DecidableEq, Repr

/-- A collected unit status: severity kind and message. -/
structure Status where
  kind : StatusKind
  message : String
deriving DecidableEq, Repr

/-- Whether the reports-cache mount entry is missing or has an empty
location, given that container metadata is present (`charm.py`,
lines 157-160). -/
def storage_mount_missing (env : CharmEnv) : Bool :=
  match env.containerMeta with
  | none => false
  | some meta => (meta.mounts.lookup REPORTS_CACHE_NAME).getD "" == ""

/-- Embedding of `_on_collect_status` (`charm.py`, lines 146-177) as
the ordered list of statuses added to the event, in the order the
source adds them: the database relation conditions first, then the
container-metadata / storage-mount conditions, then the service run
state conditions, and finally the unconditional active status. -/
def collect_status (env : CharmEnv) : List Status :=
  let db_statuses :=
    if !env.db.relationExists then
      [Status.mk StatusKind.blocked "Waiting for database relation"]
    else if !is_relation_ready env.db then
      [Status.mk StatusKind.waiting "Waiting for database relation"]
    else []
  let meta_statuses :=
    match env.containerMeta with
    | none => [Status.mk StatusKind.blocked "Container metadata not found"]
    | some meta =>
      if (meta.mounts.lookup REPORTS_CACHE_NAME).getD "" == "" then
        [Status.mk StatusKind.blocked "Waiting for reports cache storage mount"]
      else []
  let service_statuses :=
    if !env.servicesQueryOk then
      [Status.mk StatusKind.maintenance "Waiting for Pebble in workload container"]
    else
      (if !env.webRunning then
        [Status.mk StatusKind.maintenance "Waiting for the web service to start up"]
      else [])
      ++ (if !env.ingestRunning then
        [Status.mk StatusKind.maintenance "Waiting for the ingest service to start up"]
      else [])
  db_statuses ++ meta_statuses ++ service_statuses ++ [Status.mk StatusKind.active ""]

/-- Conjunction of all the conditions under which `_on_collect_status`
adds no blocked, waiting, or maintenance status. -/
def no_status_conditions (env : CharmEnv) : Bool :=
  env.db.relationExists && is_relation_ready env.db
  && env.containerMeta.isSome && !storage_mount_missing env
  && env.servicesQueryOk && env.webRunning && env.ingestRunning

/-- Reading the object appended by an allocation. -/
theorem heap_get_append_self (h : Heap) (v : List String) :
    heap_get (h ++ [v]) h.length = v := by
  unfold heap_get
  rw [List.getD_append_right _ _ _ _ (le_refl _)]
  simp

/-- Allocation does not change existing heap cells. -/
theorem heap_get_append_of_lt (h : Heap) (v : List String) (r : Nat)
    (hr : r < h.length) : heap_get (h ++ [v]) r = heap_get h r := by
  unfold heap_get
  rw [List.getD_append _ _ _ _ hr]

/-- Reading back a cell just mutated. -/
theorem heap_get_set_self (h : Heap) (i : Nat) (v : List String)
    (hi : i < h.length) : heap_get (heap_set h i v) i = v := by
  induction h generalizing i with
  | nil => simp at hi
  | cons a t ih =>
    cases i with
    | zero => rfl
    | succ n =>
      have hn : n < t.length := by simpa using hi
      simpa [heap_set, heap_get] using ih n hn

/-- Mutating one cell does not change the others. -/
theorem heap_get_set_ne (h : Heap) (i r : Nat) (v : List String)
    (hne : r ≠ i) : heap_get (heap_set h i v) r = heap_get h r := by
  induction h generalizing i r with
  | nil => rfl
  | cons a t ih =>
    cases i with
    | zero =>
      cases r with
      | zero => exact absurd rfl hne
      | succ m => rfl
    | succ n =>
      cases r with
      | zero => rfl
      | succ m => exact ih n m (fun hh => hne (by rw [hh]))

/-- C2: rendering the dynamic config with the legacy flag false
serializes exactly the input allow-list; with the flag true it
serializes the input list followed by exactly the 14 fixed legacy
identifiers, each formatted as ubuntu-report/ubuntu/desktop/<version>;
and in both cases the list object the caller passed in is left
unmodified on the heap. -/
theorem render_dynamic_config_spec (heap : Heap) (r : Nat)
    (hr : r < heap.length) :
    (render_dynamic_config heap r false).2 = heap_get heap r ∧
    (render_dynamic_config heap r true).2 =
      heap_get heap r ++ LEGACY_VERSIONS.map legacy_entry ∧
    LEGACY_VERSIONS.length = 14 ∧
    ∀ legacy, heap_get (render_dynamic_config heap r legacy).1 r = heap_get heap r := by
  refine ⟨rfl, ?_, by decide, ?_⟩
  · have h1 := heap_get_append_self heap (heap_get heap r)
    have hlen : heap.length < (heap ++ [heap_get heap r]).length := by simp
    simp only [render_dynamic_config, heap_alloc, if_true]
    rw [heap_get_set_self _ _ _ hlen, h1]
  · intro legacy
    cases legacy with
    | false => rfl
    | true =>
      have hne : r ≠ heap.length := Nat.ne_of_lt hr
      simp only [render_dynamic_config, heap_alloc, if_true]
      rw [heap_get_set_ne _ _ _ _ hne, heap_get_append_of_lt _ _ _ hr]

/-- Witness for C2 at a concrete one-cell heap. -/
theorem render_dynamic_config_spec_witness :
    0 < ([["app1"]] : Heap).length ∧
    (render_dynamic_config [["app1"]] 0 true).2 =
      heap_get [["app1"]] 0 ++ LEGACY_VERSIONS.map legacy_entry :=
  ⟨by decide, (render_dynamic_config_spec [["app1"]] 0 (by decide)).2.1⟩

/-- Reading relation data for a single related instance reduces to
parsing its bag. -/
theorem get_relation_data_single (bag : RelationBag) :
    get_relation_data ⟨true, [bag], true⟩ = parse_relation_bag bag := rfl

/-- C3: for every relation bag that lacks an endpoints field, or whose
first endpoint splits into fewer than 2 colon-separated parts, or that
is missing any of the username, password, or database fields,
get_relation_data returns the canonical empty descriptor. -/
theorem get_relation_data_invalid_bag (bag : RelationBag)
    (h : bag.endpoints = none ∨ (first_endpoint_parts bag).length < 2 ∨
      bag.username = none ∨ bag.password = none ∨ bag.database = none) :
    get_relation_data ⟨true, [bag], true⟩ = emptyDB := by
  rw [get_relation_data_single]
  unfold parse_relation_bag
  rcases h with h | h | h | h | h
  · have hl : (first_endpoint_parts bag).length < 2 := by
      simp only [first_endpoint_parts, h]
      decide
    simp [hl]
  · simp [h]
  · by_cases hl : (first_endpoint_parts bag).length < 2
    · simp [hl]
    · simp [hl, h]
  · by_cases hl : (first_endpoint_parts bag).length < 2
    · simp [hl]
    · simp [hl, h]
  · by_cases hl : (first_endpoint_parts bag).length < 2
    · simp [hl]
    · simp [hl, h]

/-- Witness for C3 at the bag with every field absent. -/
theorem get_relation_data_invalid_bag_witness :
    (({} : RelationBag).endpoints = none ∨
      (first_endpoint_parts {}).length < 2 ∨
      ({} : RelationBag).username = none ∨
      ({} : RelationBag).password = none ∨
      ({} : RelationBag).database = none) ∧
    get_relation_data ⟨true, [{}], true⟩ = emptyDB :=
  ⟨Or.inl rfl, get_relation_data_invalid_bag {} (Or.inl rfl)⟩

/-- A bag whose first endpoint has an empty host part but a non-empty
port part, with all credential fields present. -/
def mixedBag : RelationBag :=
  { endpoints := some ":5432", username := some "u",
    password := some "p", database := some "d" }

/-- C4 counterexample: on the bag with endpoints set to the string
consisting of a colon followed by 5432, get_relation_data returns a
descriptor whose host is empty while its port is 5432, so the reader
does return a partially populated descriptor. -/
theorem get_relation_data_partial_descriptor :
    (get_relation_data ⟨true, [mixedBag], true⟩).host = "" ∧
    (get_relation_data ⟨true, [mixedBag], true⟩).port = "5432" ∧
    get_relation_data ⟨true, [mixedBag], true⟩ ≠ emptyDB := by
  refine ⟨rfl, rfl, ?_⟩
  decide

/-- C4 (amended): every descriptor returned by get_relation_data is
either the canonical empty descriptor or has all five fields copied
verbatim from the first related bag (host and port from the first two
colon-separated parts of the first endpoint, the rest from the
credential fields); since those parts may themselves be empty strings,
the descriptor is not necessarily fully populated. -/
theorem get_relation_data_empty_or_verbatim (st : DatabaseHandlerState) :
    get_relation_data st = emptyDB ∨
    ∃ bag rest, st.relations = bag :: rest ∧
      get_relation_data st =
        { host := (first_endpoint_parts bag).headD ""
          port := (first_endpoint_parts bag).getD 1 ""
          user := bag.username.getD ""
          password := bag.password.getD ""
          db_name := bag.database.getD "" } := by
  rcases hst : st.relations with _ | ⟨bag, rest⟩
  · left
    simp [get_relation_data, hst]
  · simp only [get_relation_data, hst]
    by_cases hex : st.relationExists = true
    case neg => left; simp [hex]
    case pos =>
      by_cases hfk : st.fetchOk = true
      case neg => left; simp [hex, hfk]
      case pos =>
        simp only [hex, hfk, Bool.not_true, Bool.false_eq_true, if_false]
        unfold parse_relation_bag
        by_cases hl : (first_endpoint_parts bag).length < 2
        · left; simp [hl]
        · by_cases hc : (bag.username = none ∨ bag.password = none ∨
            bag.database = none)
          · left; simp [hl, hc]
          · right
            exact ⟨bag, rest, rfl, by simp [hl, hc]⟩

/-- A fully valid relation bag. -/
def validBag : RelationBag :=
  { endpoints := some "host.example:5432", username := some "u",
    password := some "p", database := some "d" }

/-- A bag whose endpoints field is present but empty. -/
def blankEndpointsBag : RelationBag :=
  { endpoints := some "", username := some "u2",
    password := some "p2", database := some "d2" }

/-- C5 counterexample: with two related instances where the first has
an empty endpoints field and the second is fully valid,
get_relation_data returns the canonical empty descriptor rather than a
descriptor built from the second instance, whose parse is non-empty. -/
theorem get_relation_data_first_instance_ce :
    get_relation_data ⟨true, [blankEndpointsBag, validBag], true⟩ = emptyDB ∧
    parse_relation_bag validBag ≠ emptyDB := by
  refine ⟨rfl, ?_⟩
  decide

/-- C5 (amended): get_relation_data always reads the first related
instance only; the returned descriptor is unchanged by whatever later
instances are present. -/
theorem get_relation_data_first_only (ex fok : Bool) (bag : RelationBag)
    (rest : List RelationBag) :
    get_relation_data ⟨ex, bag :: rest, fok⟩ =
      get_relation_data ⟨ex, [bag], fok⟩ := rfl

/-- C6: on the valid bag with endpoints host.example:5432, username u,
password p and database d, get_relation_data returns exactly the
descriptor with host host.example, port 5432, user u, password p and
db_name d. -/
theorem get_relation_data_valid_bag :
    get_relation_data ⟨true, [validBag], true⟩ =
      { host := "host.example", port := "5432", user := "u",
        password := "p", db_name := "d" } := by
  rfl

/-- The web startup flag of the computed layer is the final
reassignment at line 390 of the source. -/
theorem pebble_layer_web_startup_eq (env : CharmEnv) :
    (pebble_layer env).web.startup =
      (if report_cache_path env != "" then "enabled" else "disabled") := rfl

/-- The ingest startup flag of the computed layer is the final
reassignment at lines 391-395 of the source. -/
theorem pebble_layer_ingest_startup_eq (env : CharmEnv) :
    (pebble_layer env).ingest.startup =
      (if report_cache_path env != "" && is_relation_ready env.db then "enabled"
       else "disabled") := rfl

/-- C1: in the computed service plan, the ingest startup flag is
enabled if and only if the reports-cache storage path is non-empty and
the database connection descriptor is ready, and the web startup flag
is enabled if and only if the storage path is non-empty; neither
condition mentions the rendered-config state, so the flags are
independent of it and the web flag is independent of the database
relation. -/
theorem pebble_layer_startup (env : CharmEnv) :
    ((pebble_layer env).web.startup = "enabled" ↔ report_cache_path env ≠ "") ∧
    ((pebble_layer env).ingest.startup = "enabled" ↔
      (report_cache_path env ≠ "" ∧ is_relation_ready env.db = true)) := by
  rw [pebble_layer_web_startup_eq, pebble_layer_ingest_startup_eq]
  constructor
  · by_cases hp : report_cache_path env = "" <;> simp [hp]
  · by_cases hp : report_cache_path env = "" <;>
      cases hr : is_relation_ready env.db <;> simp [hp, hr]

/-- A concrete environment: storage mounted, database relation absent,
no config file rendered, both services in the plan and running. -/
def baseEnv : CharmEnv :=
  { web_port := 8080, migrate := true, debug := false,
    db := { relationExists := false, relations := [], fetchOk := true },
    containerMeta := some { mounts := [("reports-cache", "/var/lib/ubuntu-insights/")] },
    canConnect := true, webConfigExists := false, ingestConfigExists := false,
    webInPlan := true, ingestInPlan := true,
    webRunning := true, ingestRunning := true, servicesQueryOk := true }

/-- The same environment with a ready database relation (and still no
rendered config files). -/
def readyEnv : CharmEnv :=
  { baseEnv with
    db := { relationExists := true, relations := [validBag], fetchOk := true } }

/-- Witness for C1: with storage mounted and the relation ready, both
flags are enabled, even though no config file has been rendered. -/
theorem pebble_layer_startup_witness :
    (pebble_layer readyEnv).web.startup = "enabled" ∧
    (pebble_layer readyEnv).ingest.startup = "enabled" :=
  ⟨((pebble_layer_startup readyEnv).1).mpr (by decide),
   ((pebble_layer_startup readyEnv).2).mpr (by refine ⟨?_, ?_⟩ <;> decide)⟩

/-- C7: the database-relation-broken handler either does nothing or
stops exactly the ingest service; it never stops the web service,
renders a config file, runs migrations, submits a layer, or replans. -/
theorem on_database_relation_broken_only_stops_ingest (env : CharmEnv) :
    on_database_relation_broken env = [] ∨
    on_database_relation_broken env = [Effect.stopService ServiceType.INGEST] := by
  unfold on_database_relation_broken stop_service
  by_cases hc : (env.canConnect && service_in_plan env ServiceType.INGEST
      && service_running env ServiceType.INGEST) = true
  · right; rw [if_pos hc]
  · left; rw [if_neg hc]

/-- C8: the migration runner produces no effect whenever the
connection descriptor is not ready or the container is unreachable,
and in that situation no configuration-change reconcile ever emits the
external migrate invocation, for every value of the migrate flag. -/
theorem execute_migrations_noop (env : CharmEnv)
    (h : is_relation_ready env.db = false ∨ env.canConnect = false) :
    execute_migrations env = [] ∧
    ∀ e ∈ on_config_changed env, ∀ menv, e ≠ Effect.execMigrations menv := by
  have h0 : execute_migrations env = [] := by
    unfold execute_migrations
    rcases h with h | h <;> simp [h]
  refine ⟨h0, ?_⟩
  intro e he menv
  cases hcc : env.canConnect
  · simp [on_config_changed, h0, update_layer_and_replan, hcc] at he
    rcases he with rfl | rfl | rfl <;> exact fun hh => Effect.noConfusion hh
  · simp [on_config_changed, h0, update_layer_and_replan, hcc] at he
    rcases he with rfl | rfl | rfl | rfl | rfl | rfl <;>
      exact fun hh => Effect.noConfusion hh

/-- Witness for C8 at the concrete environment with no database
relation and the migrate flag set. -/
theorem execute_migrations_noop_witness :
    (is_relation_ready baseEnv.db = false ∨ baseEnv.canConnect = false) ∧
    baseEnv.migrate = true ∧
    execute_migrations baseEnv = [] :=
  ⟨Or.inl (by decide), rfl,
   (execute_migrations_noop baseEnv (Or.inl (by decide))).1⟩

/-- C9: status collection reports the database-relation blocked
condition first when both the missing-relation and missing-storage
conditions apply, and reports exactly the active status when no
blocking, waiting, or maintenance condition applies. -/
theorem collect_status_priority (env : CharmEnv) :
    (env.db.relationExists = false → storage_mount_missing env = true →
      (collect_status env).head? =
        some (Status.mk StatusKind.blocked "Waiting for database relation")) ∧
    (no_status_conditions env = true →
      collect_status env = [Status.mk StatusKind.active ""]) := by
  constructor
  · intro h1 h2
    simp [collect_status, h1]
  · intro h
    simp only [no_status_conditions, Bool.and_eq_true, and_assoc] at h
    obtain ⟨hrel, hready, hsome, hmiss, hq, hw, hi⟩ := h
    obtain ⟨meta, hmeta⟩ := Option.isSome_iff_exists.mp hsome
    have hmiss2 : storage_mount_missing env = false := by simpa using hmiss
    have hstore : ((meta.mounts.lookup REPORTS_CACHE_NAME).getD "" == "") = false := by
      simpa [storage_mount_missing, hmeta] using hmiss2
    simp [collect_status, hrel, hready, hmeta, hstore, hq, hw, hi]

/-- An environment in which the database relation is absent and the
container metadata is present but has no reports-cache mount. -/
def bothMissingEnv : CharmEnv :=
  { baseEnv with containerMeta := some { mounts := [] } }

/-- Witness for C9 at two concrete environments: one with both the
relation and the storage mount missing, one with every condition
satisfied. -/
theorem collect_status_priority_witness :
    (bothMissingEnv.db.relationExists = false ∧
      storage_mount_missing bothMissingEnv = true ∧
      (collect_status bothMissingEnv).head? =
        some (Status.mk StatusKind.blocked "Waiting for database relation")) ∧
    (no_status_conditions readyEnv = true ∧
      collect_status readyEnv = [Status.mk StatusKind.active ""]) :=
  ⟨⟨by decide, by decide,
    (collect_status_priority bothMissingEnv).1 (by decide) (by decide)⟩,
   ⟨by decide, (collect_status_priority readyEnv).2 (by decide)⟩⟩

/-- C10: the ingest environment map is all-or-nothing: it is empty
whenever the relation is not ready, and otherwise its keys are exactly
the five DBCONFIG keys, so database credentials never appear unless
the connection descriptor is ready. -/
theorem ingest_environment_all_or_nothing (db : DatabaseHandlerState) :
    (is_relation_ready db = false → ingest_environment db = []) ∧
    (ingest_environment db = [] ∨
      (ingest_environment db).map Prod.fst =
        ["UBUNTU_INSIGHTS_INGEST_SERVICE_DBCONFIG_HOST",
         "UBUNTU_INSIGHTS_INGEST_SERVICE_DBCONFIG_PORT",
         "UBUNTU_INSIGHTS_INGEST_SERVICE_DBCONFIG_USER",
         "UBUNTU_INSIGHTS_INGEST_SERVICE_DBCONFIG_PASSWORD",
         "UBUNTU_INSIGHTS_INGEST_SERVICE_DBCONFIG_DBNAME"]) := by
  cases hr : is_relation_ready db
  · exact ⟨fun _ => by simp [ingest_environment, hr],
      Or.inl (by simp [ingest_environment, hr])⟩
  · exact ⟨fun hcon => Bool.noConfusion hcon,
      Or.inr (by simp [ingest_environment, hr])⟩

/-- Witness for C10 at the state with no database relation. -/
theorem ingest_environment_all_or_nothing_witness :
    is_relation_ready ⟨false, [], true⟩ = false ∧
    ingest_environment ⟨false, [], true⟩ = [] :=
  ⟨by decide, (ingest_environment_all_or_nothing ⟨false, [], true⟩).1 (by decide)⟩
